import Mathlib

/-!
# ShopPulse SG — formal model and verification

A shallow embedding of the ShopPulse SG registry-analytics platform:
the Angular dashboard helpers (filter bar industry matching, map hotspot
rendering, chat API client) and the NL→SQL intent/slot/template engine,
together with proofs of the documented properties.
-/

set_option maxHeartbeats 1000000
set_option maxRecDepth 40000

namespace Str

/-- Whitespace characters recognized when trimming and tokenizing. -/
def isWsChar (c : Char) : Bool :=
  c == ' ' || c == '\t' || c == '\n' || c == '\r'

/-- Lower-casing of a string, character by character (JavaScript
`toLowerCase` / Python `lower` on the ASCII range). -/
def lowerStr (s : String) : String :=
  String.mk (s.toList.map Char.toLower)

/-- Trimming of leading and trailing whitespace (JavaScript `trim`). -/
def trimStr (s : String) : String :=
  String.mk (((s.toList.dropWhile isWsChar).reverse.dropWhile isWsChar).reverse)

/-- Does `pat` occur at the head of `l`? -/
def startsWithSeq {α : Type} [BEq α] : List α → List α → Bool
  | [], _ => true
  | _ :: _, [] => false
  | p :: ps, t :: ts => p == t && startsWithSeq ps ts

/-- Does `pat` occur contiguously anywhere in the list? -/
def containsSeq {α : Type} [BEq α] (pat : List α) : List α → Bool
  | [] => startsWithSeq pat []
  | t :: rest => startsWithSeq pat (t :: rest) || containsSeq pat rest

/-- A non-empty, all-decimal-digit string (the regex `^\d+$`). -/
def isDigitString (value : String) : Bool :=
  !value.toList.isEmpty && value.toList.all Char.isDigit

/-- Accumulator-based whitespace tokenizer: splits on whitespace and drops
empty tokens (whitespace collapsing). -/
def tokensAux : List Char → List Char → List String
  | [], acc => if acc.isEmpty then [] else [String.mk acc.reverse]
  | c :: cs, acc =>
    if isWsChar c then
      if acc.isEmpty then tokensAux cs [] else String.mk acc.reverse :: tokensAux cs []
    else
      tokensAux cs (c :: acc)

/-- Lower-cased, whitespace-collapsed token list of a text. -/
def tokens (s : String) : List String :=
  tokensAux (lowerStr s).toList []

/-- Parse a non-empty all-digit string as a natural number. -/
def digitsToNat (cs : List Char) : Nat :=
  cs.foldl (fun n c => n * 10 + (c.toNat - 48)) 0

end Str

namespace FilterBar

open Str

/-- An SSIC category entry as delivered by the taxonomy endpoint and used by
the filter bar (`SsicCategory` in `api.service.ts`): an id, a display label,
a keyword list and a sector id. -/
structure SsicCategory where
  id : String
  label : String
  keywords : List String := []
  sector : String := ""
deriving DecidableEq, Repr

/-- The dashboard filter state (`FilterState` in `filter-bar.component.ts`):
all fields optional; `ssic` holds a raw SSIC code, `ssicCategory` a category
id. -/
structure FilterState where
  «from» : Option String := none
  «to» : Option String := none
  ssic : Option String := none
  ssicCategory : Option String := none
  area : Option String := none
deriving DecidableEq, Repr

/-- The exact (case-insensitive) label match performed first in
`onCategoryInput`: `categories.find(c => c.label.toLowerCase() == lower)`. -/
def directMatch (categories : List SsicCategory) (value : String) : Option SsicCategory :=
  categories.find? (fun c => lowerStr c.label == lowerStr value)

/-- The exact (case-insensitive) keyword match performed second in
`onCategoryInput`:
`categories.find(c => (c.keywords || []).some(k => k.toLowerCase() == lower))`. -/
def keywordMatch (categories : List SsicCategory) (value : String) : Option SsicCategory :=
  categories.find? (fun c => c.keywords.any (fun k => lowerStr k == lowerStr value))

/-- `FilterBarComponent.selectCategory`: selecting a category from the list
sets `state.ssicCategory` to the category id and clears `state.ssic`. -/
def selectCategory (category : SsicCategory) (state : FilterState) : FilterState :=
  { state with ssicCategory := some category.id, ssic := none }

/-- `FilterBarComponent.onCategoryInput`: trims the free-text input; empty
input clears both industry slots; otherwise an exact label match or, failing
that, an exact keyword match (`direct || keyword`) selects a category and
clears `ssic`; otherwise a digit-only input is stored as a raw SSIC code and
clears `ssicCategory`; otherwise both slots are cleared. -/
def onCategoryInput (categories : List SsicCategory) (categoryInput : String)
    (state : FilterState) : FilterState :=
  if (trimStr categoryInput).toList.isEmpty then
    { state with ssicCategory := none, ssic := none }
  else
    match directMatch categories (trimStr categoryInput) <|>
        keywordMatch categories (trimStr categoryInput) with
    | some m => { state with ssicCategory := some m.id, ssic := none }
    | none =>
      if isDigitString (trimStr categoryInput) then
        { state with ssic := some (trimStr categoryInput), ssicCategory := none }
      else
        { state with ssic := none, ssicCategory := none }

/-- At most one of the two industry slots is populated. -/
def atMostOneIndustrySlot (s : FilterState) : Prop :=
  s.ssic = none ∨ s.ssicCategory = none

/-- A small concrete category list used to evaluate the filter bar on
concrete inputs; the label of the second entry doubles as a keyword of the
first. -/
def sampleCategories : List SsicCategory :=
  [{ id := "beverages", label := "Beverage Services", keywords := ["food"] },
   { id := "food", label := "Food", keywords := ["meals"] }]

end FilterBar

namespace Api

/-- HTTP method of a request issued by `ApiService`. -/
inductive HttpMethod
  | get
  | post
deriving DecidableEq, Repr

/-- The JSON body `{ question }` that `chatSql` and `chatQuery` post. -/
structure ChatRequestBody where
  question : String
deriving DecidableEq, Repr

/-- A request built by the chat methods of `ApiService`: method, full URL and
JSON body. -/
structure HttpRequest where
  method : HttpMethod
  url : String
  body : ChatRequestBody
deriving DecidableEq, Repr

/-- `ApiService.baseUrl`. -/
def baseUrl : String := "http://localhost:8000"

/-- `ApiService.chatSql(question)`: posts `{question}` to
`/api/chat/sql-only`. -/
def chatSql (question : String) : HttpRequest :=
  { method := .post, url := baseUrl ++ "/api/chat/sql-only", body := { question := question } }

/-- `ApiService.chatQuery(question)`: posts `{question}` to
`/api/chat/query`. -/
def chatQuery (question : String) : HttpRequest :=
  { method := .post, url := baseUrl ++ "/api/chat/query", body := { question := question } }

/-- A JSON value, for the untyped `Record<string, unknown>` slot object and
the untyped data rows in the chat responses. -/
inductive JsonValue where
  | null
  | bool (b : Bool)
  | num (n : Int)
  | str (s : String)
  | arr (elems : List JsonValue)
  | obj (fields : List (String × JsonValue))

/-- `ChatSqlResponse` in `api.service.ts`: `{intent, slots, sql}`. -/
structure ChatSqlResponse where
  intent : String
  slots : List (String × JsonValue)
  sql : String

/-- `ChatResponse` in `api.service.ts`: `ChatSqlResponse` extended with
`data` (array of objects) and `narrative`. -/
structure ChatResponse extends ChatSqlResponse where
  data : List (List (String × JsonValue))
  narrative : String

end Api

namespace MapPage

/-- `MapHotspot` in `api.service.ts`: one hotspot row for the map, carrying
an aggregate `count` and a GeoJSON `geometry` string. -/
structure MapHotspot where
  subzone_id : Option String := none
  name : Option String := none
  planning_area_id : Option String := none
  count : Int
  geometry : String := ""
deriving DecidableEq, Repr

/-- The maximum count computed at the top of `MapPage.renderGeo`:
`Math.max(...hotspots.map(h => h.count), 1)`, i.e. the maximum of all hotspot
counts and the constant 1. -/
def renderGeoMaxCount (hotspots : List MapHotspot) : Int :=
  (hotspots.map (fun h => h.count)).foldr max 1

/-- The per-feature fill intensity used by the style callback of `renderGeo`:
`count / maxCount`. -/
def featureIntensity (hotspots : List MapHotspot) (count : Int) : ℚ :=
  (count : ℚ) / ((renderGeoMaxCount hotspots : Int) : ℚ)

end MapPage

namespace NlSql

open Str

/-- Modelled from the spec: the closed intent enumeration of the NL→SQL
engine (the FastAPI backend is not among the provided sources):
{trend, ranking, hotspot, comparison, entity_lookup, general}. -/
inductive Intent
  | trend
  | ranking
  | hotspot
  | comparison
  | entity_lookup
  | general
deriving DecidableEq, Repr

/-- Modelled from the spec: the slot set extracted from a question. Each
slot is present only when extraction found an unambiguous match. Dates are
ISO strings at month grain; `limit` is an integer-typed bound. -/
structure Slots where
  date_from : Option String := none
  date_to : Option String := none
  ssic_code : Option String := none
  ssic_category : Option String := none
  planning_area : Option String := none
  subzone : Option String := none
  compare_area_a : Option String := none
  compare_area_b : Option String := none
  limit : Option Nat := none
deriving DecidableEq, Repr

/-- Modelled from the spec: one category of the SSIC taxonomy lookup
(sector → category → keywords), with the SSIC codes the category maps to. -/
structure TaxonomyCategory where
  id : String
  label : String
  keywords : List String := []
  codes : List String := []
deriving DecidableEq, Repr

/-- Modelled from the spec: the read-only, load-once lookups — the area
gazetteer (normalized planning-area / subzone names) and the SSIC
taxonomy. -/
structure Lookups where
  areas : List String := []
  categories : List TaxonomyCategory := []
deriving DecidableEq, Repr

/-- Modelled from the spec: the processing date (month grain) against which
relative date expressions are resolved. -/
structure ProcessingDate where
  year : Nat
  month : Nat
deriving DecidableEq, Repr

/-- Modelled from the spec: normalized question text — lower-cased and
whitespace-collapsed — as a token list fed to the slot extractors. -/
def normalizeTokens (q : String) : List String :=
  tokens q

/-- Modelled from the spec: does the gazetteer area name occur (as a
contiguous token phrase, case-insensitively) in the question tokens? -/
def mentionsArea (toks : List String) (a : String) : Bool :=
  !(tokens a).isEmpty && containsSeq (tokens a) toks

/-- Modelled from the spec: the area extractor — the distinct gazetteer
areas mentioned in the question, in gazetteer order without duplicates. -/
def mentionedAreas (lk : Lookups) (toks : List String) : List String :=
  (lk.areas.filter (fun a => mentionsArea toks a)).dedup

/-- Modelled from the spec: the comparison cue — "vs", "versus", or the
phrase "compared to". -/
def hasCompareCue (toks : List String) : Bool :=
  toks.contains "vs" || toks.contains "versus" || containsSeq ["compared", "to"] toks

/-- Modelled from the spec: an SSIC numeric code token — 1 to 5 decimal
digits (leading zeros permitted). -/
def isSsicCodeToken (t : String) : Bool :=
  !t.toList.isEmpty && t.toList.length ≤ 5 && t.toList.all Char.isDigit

/-- Modelled from the spec: an exact (case-insensitive) category-label
match — the label's token phrase occurs in the question tokens. -/
def labelMatches (toks : List String) (c : TaxonomyCategory) : Bool :=
  !(tokens c.label).isEmpty && containsSeq (tokens c.label) toks

/-- Modelled from the spec: an exact (case-insensitive) category-keyword
match — some keyword's token phrase occurs in the question tokens. -/
def keywordMatches (toks : List String) (c : TaxonomyCategory) : Bool :=
  c.keywords.any (fun k => !(tokens k).isEmpty && containsSeq (tokens k) toks)

/-- Modelled from the spec: a partial substring match — some question token
of length at least 3 occurs inside the lower-cased category label. -/
def partMatches (toks : List String) (c : TaxonomyCategory) : Bool :=
  toks.any (fun t => 3 ≤ t.toList.length && containsSeq t.toList (lowerStr c.label).toList)

/-- Modelled from the spec: the industry extractor — numeric-looking tokens
are treated as SSIC codes, never keywords; otherwise an exact label match is
preferred over a keyword match over a partial substring match. Returns the
(ssic_code, ssic_category) slot pair. -/
def extractIndustry (lk : Lookups) (toks : List String) : Option String × Option String :=
  match toks.find? isSsicCodeToken with
  | some t => (some t, none)
  | none =>
    match lk.categories.find? (labelMatches toks) with
    | some c => (none, some c.id)
    | none =>
      match lk.categories.find? (keywordMatches toks) with
      | some c => (none, some c.id)
      | none =>
        match lk.categories.find? (partMatches toks) with
        | some c => (none, some c.id)
        | none => (none, none)

/-- Modelled from the spec: three-letter month-name stems, used to
recognize month tokens ("jan", "january", ...). -/
def monthStems : List String :=
  ["jan", "feb", "mar", "apr", "may", "jun", "jul", "aug", "sep", "oct", "nov", "dec"]

/-- Modelled from the spec: the 1-based month index of a token whose head
is a month-name stem. -/
def monthIndex (t : String) : Option Nat :=
  match monthStems.findIdx? (fun m => startsWithSeq m.toList t.toList) with
  | some i => some (i + 1)
  | none => none

/-- Modelled from the spec: parse a non-empty all-digit token. -/
def parseNatToken (t : String) : Option Nat :=
  if !t.toList.isEmpty && t.toList.all Char.isDigit then some (digitsToNat t.toList)
  else none

/-- Modelled from the spec: a four-digit calendar-year token. -/
def parseYearToken (t : String) : Option Nat :=
  if t.toList.length == 4 then parseNatToken t else none

/-- Modelled from the spec: total month count of a processing date, for
month arithmetic. -/
def monthsTotal (d : ProcessingDate) : Nat :=
  d.year * 12 + (d.month - 1)

/-- Modelled from the spec: the processing date having the given total
month count. -/
def dateOfMonths (n : Nat) : ProcessingDate :=
  { year := n / 12, month := n % 12 + 1 }

/-- Modelled from the spec: step a processing date back by `n` months. -/
def subMonths (d : ProcessingDate) (n : Nat) : ProcessingDate :=
  dateOfMonths (monthsTotal d - n)

/-- Modelled from the spec: scan for an explicit absolute date range
"from MONTH YEAR to MONTH YEAR". -/
def findAbsoluteRange : List String → Option (ProcessingDate × ProcessingDate)
  | [] => none
  | t :: rest =>
    match t, rest with
    | "from", m1 :: y1 :: "to" :: m2 :: y2 :: _ =>
      (match monthIndex m1, parseYearToken y1, monthIndex m2, parseYearToken y2 with
       | some a, some b, some c, some d => some ({ year := b, month := a }, { year := d, month := c })
       | _, _, _, _ => findAbsoluteRange rest)
    | _, _ => findAbsoluteRange rest

/-- Modelled from the spec: scan for a trailing relative range
"last N months". -/
def findLastMonths : List String → Option Nat
  | [] => none
  | t :: rest =>
    match t, rest with
    | "last", n :: "months" :: _ =>
      (match parseNatToken n with
       | some k => some k
       | none => findLastMonths rest)
    | _, _ => findLastMonths rest

/-- Modelled from the spec: the relative range "this year". -/
def hasThisYear (toks : List String) : Bool :=
  containsSeq ["this", "year"] toks

/-- Modelled from the spec: scan for a single anchor "since YEAR". -/
def findSinceYear : List String → Option Nat
  | [] => none
  | t :: rest =>
    match t, rest with
    | "since", y :: _ =>
      (match parseYearToken y with
       | some yr => some yr
       | none => findSinceYear rest)
    | _, _ => findSinceYear rest

/-- Modelled from the spec: the date-range extractor — an explicit absolute
range is preferred over relative cues; relative expressions are resolved
against the processing date; `none` when no date cue is found. -/
def extractDates (today : ProcessingDate) (toks : List String) :
    Option (ProcessingDate × ProcessingDate) :=
  match findAbsoluteRange toks with
  | some r => some r
  | none =>
    match findLastMonths toks with
    | some n => some (subMonths today (n - 1), today)
    | none =>
      if hasThisYear toks then some ({ year := today.year, month := 1 }, today)
      else
        match findSinceYear toks with
        | some y => some ({ year := y, month := 1 }, today)
        | none => none

/-- Modelled from the spec: geographic hotspot cues ("hotspot", "where",
"map"). -/
def hasHotspotCue (toks : List String) : Bool :=
  toks.contains "hotspot" || toks.contains "hotspots" || toks.contains "where" ||
    toks.contains "map"

/-- Modelled from the spec: a distribution request ("which subzones"). -/
def hasDistributionCue (toks : List String) : Bool :=
  containsSeq ["which", "subzones"] toks

/-- Modelled from the spec: ranking cues ("top", "most", "highest"). -/
def hasRankingCue (toks : List String) : Bool :=
  toks.contains "top" || toks.contains "most" || toks.contains "highest"

/-- Modelled from the spec: trend cues ("trend", "over time", "growth",
"monthly"). -/
def hasTrendCue (toks : List String) : Bool :=
  toks.contains "trend" || toks.contains "trends" || toks.contains "growth" ||
    toks.contains "monthly" || containsSeq ["over", "time"] toks

/-- Modelled from the spec: an explicit UEN token — 9 or 10 characters,
digits followed by a final letter. -/
def isUenToken (t : String) : Bool :=
  (t.toList.length == 9 || t.toList.length == 10) &&
    (match t.toList.getLast? with
     | some c => c.isAlpha
     | none => false) &&
    t.toList.dropLast.all Char.isDigit

/-- Modelled from the spec: lookup cues — an explicit UEN token or a quoted
exact entity name. -/
def hasLookupCue (q : String) (toks : List String) : Bool :=
  toks.any isUenToken || q.toList.contains '\"'

/-- Modelled from the spec: two-digit zero-padding for ISO dates. -/
def pad2 (n : Nat) : String :=
  if n < 10 then "0" ++ toString n else toString n

/-- Modelled from the spec: the ISO first-of-month date of a processing
date (the engine works at month grain). -/
def isoMonthStart (d : ProcessingDate) : String :=
  toString d.year ++ "-" ++ pad2 d.month ++ "-01"

/-- Modelled from the spec: the slot set produced by running all extractors
on the question tokens. A single unambiguous area mention fills
`planning_area`; zero or several leave it unset. Comparison slots are
filled only by the classifier's comparison rule. -/
def baseSlots (lk : Lookups) (today : ProcessingDate) (toks : List String) : Slots :=
  { date_from := (extractDates today toks).map (fun r => isoMonthStart r.1),
    date_to := (extractDates today toks).map (fun r => isoMonthStart r.2),
    ssic_code := (extractIndustry lk toks).1,
    ssic_category := (extractIndustry lk toks).2,
    planning_area :=
      match mentionedAreas lk toks with
      | [a] => some a
      | _ => none }

/-- Modelled from the spec: rules 2–6 of the priority-ordered classifier,
evaluated when the comparison rule does not fire: hotspot, then ranking,
then trend (a trend cue or a date range), then entity lookup, else
general. -/
def fallbackIntent (today : ProcessingDate) (q : String) (toks : List String)
    (s : Slots) : Intent :=
  if hasHotspotCue toks || (s.planning_area.isSome && hasDistributionCue toks) then .hotspot
  else if hasRankingCue toks then .ranking
  else if hasTrendCue toks || (extractDates today toks).isSome then .trend
  else if hasLookupCue q toks then .entity_lookup
  else .general

/-- Modelled from the spec: the intent classifier — priority-ordered rule
evaluation, first match wins. Exactly two distinct area mentions joined by
a comparison cue yield `comparison` with both comparison slots set;
otherwise the remaining rules apply to the extracted slot set. -/
def classify (lk : Lookups) (today : ProcessingDate) (q : String) : Intent × Slots :=
  match mentionedAreas lk (normalizeTokens q), hasCompareCue (normalizeTokens q) with
  | [a, b], true =>
    (.comparison,
      { baseSlots lk today (normalizeTokens q) with
          compare_area_a := some a, compare_area_b := some b })
  | _, _ =>
    (fallbackIntent today q (normalizeTokens q) (baseSlots lk today (normalizeTokens q)),
      baseSlots lk today (normalizeTokens q))

/-- Modelled from the spec: the industry filter shape of a rendered query —
no filter, a single bound code, a bound code set, or a
guaranteed-to-match-nothing condition. -/
inductive IndustryCond
  | noneCond
  | byCode
  | byCodeSet
  | never
deriving DecidableEq, Repr

/-- Modelled from the spec: the SSIC codes a category id maps to; an
unrecognized id maps to no codes. -/
def codesForCategory (lk : Lookups) (catId : String) : List String :=
  match lk.categories.find? (fun c => c.id == catId) with
  | some c => c.codes
  | none => []

/-- Modelled from the spec: the industry filter chosen by the renderer. A
category that maps to zero codes (or an unrecognized category) yields the
matches-nothing condition — the filter is never simply omitted. -/
def industryCond (lk : Lookups) (s : Slots) : IndustryCond :=
  match s.ssic_code with
  | some _ => .byCode
  | none =>
    match s.ssic_category with
    | some cat => if (codesForCategory lk cat).isEmpty then .never else .byCodeSet
    | none => .noneCond

/-- Modelled from the spec: the static SQL text of each industry filter
shape; user values appear only as named parameter placeholders. -/
def industrySql : IndustryCond → String
  | .noneCond => ""
  | .byCode => " AND primary_ssic_norm = {ssic_code}"
  | .byCodeSet => " AND primary_ssic_norm IN {ssic_codes}"
  | .never => " AND 1 = 0"

/-- Modelled from the spec: the static area filter fragment — present
exactly when the planning-area slot is set. -/
def areaSql (s : Slots) : String :=
  match s.planning_area with
  | some _ => " AND planning_area_id = {planning_area}"
  | none => ""

/-- Modelled from the spec: the static date-range predicate, always bound
through the `month_from` / `month_to` parameters. -/
def dateSql : String :=
  " WHERE registration_month >= {month_from} AND registration_month <= {month_to}"

/-- Modelled from the spec: the static bounded LIMIT clause, always bound
through the integer `limit` parameter. -/
def limitSql : String := " LIMIT {limit}"

/-- Modelled from the spec: the static comparison-area predicate binding
the two comparison-area parameters. -/
def compareAreaSql : String :=
  " AND planning_area_id IN ({compare_area_a}, {compare_area_b})"

/-- Modelled from the spec: the guaranteed-zero-row stand-in query used for
`general` questions and for intents whose required slots are absent
(RenderingInsufficientSlots policy). -/
def fallbackSql : String := "SELECT 1 WHERE 1 = 0"

/-- Modelled from the spec: the static query skeleton per intent, each over
the pre-aggregated warehouse table matching the intent's grain. -/
def skeletonSql : Intent → String
  | .trend => "SELECT registration_month, sum(new_entities) AS c FROM new_entities_monthly_by_ssic"
  | .ranking => "SELECT primary_ssic_norm, sum(new_entities) AS c FROM new_entities_monthly_by_ssic"
  | .hotspot => "SELECT subzone_id, sum(new_entities) AS c FROM new_entities_monthly_by_subzone"
  | .comparison =>
      "SELECT planning_area_id, sum(new_entities) AS c FROM new_entities_monthly_by_planning_area"
  | .entity_lookup => fallbackSql
  | .general => fallbackSql

/-- Modelled from the spec: the static grouping/ordering tail per intent. -/
def groupSql : Intent → String
  | .trend => " GROUP BY registration_month ORDER BY registration_month"
  | .ranking => " GROUP BY primary_ssic_norm ORDER BY c DESC"
  | .hotspot => " GROUP BY subzone_id ORDER BY c DESC"
  | .comparison => " GROUP BY planning_area_id ORDER BY c DESC"
  | .entity_lookup => ""
  | .general => ""

/-- Modelled from the spec: the ordered static fragments whose
concatenation is the rendered SQL text for a given intent and slot set. The
entity-lookup intent carries no entity slot, so it renders the
insufficient-information stand-in. -/
def sqlPieces (lk : Lookups) (i : Intent) (s : Slots) : List String :=
  match i with
  | .general => [fallbackSql]
  | .entity_lookup => [fallbackSql]
  | .comparison =>
      [skeletonSql .comparison, dateSql, compareAreaSql, industrySql (industryCond lk s),
        groupSql .comparison, limitSql]
  | .trend =>
      [skeletonSql .trend, dateSql, industrySql (industryCond lk s), areaSql s,
        groupSql .trend, limitSql]
  | .ranking =>
      [skeletonSql .ranking, dateSql, industrySql (industryCond lk s), areaSql s,
        groupSql .ranking, limitSql]
  | .hotspot =>
      [skeletonSql .hotspot, dateSql, industrySql (industryCond lk s), areaSql s,
        groupSql .hotspot, limitSql]

/-- Modelled from the spec: the closed list of every static fragment a
rendered query can be assembled from. -/
def sqlFragments : List String :=
  [skeletonSql .trend, skeletonSql .ranking, skeletonSql .hotspot, skeletonSql .comparison,
    fallbackSql, dateSql, compareAreaSql, industrySql .noneCond, industrySql .byCode,
    industrySql .byCodeSet, industrySql .never, " AND planning_area_id = {planning_area}", "",
    groupSql .trend, groupSql .ranking, groupSql .hotspot, groupSql .comparison, limitSql]

/-- Modelled from the spec: a typed bound parameter value — string, string
list, or integer. -/
inductive ParamValue
  | str (v : String)
  | strList (vs : List String)
  | nat (n : Nat)
deriving DecidableEq, Repr

/-- Modelled from the spec: the default trailing 12 complete months ending
at the processing date. -/
def defaultRange (today : ProcessingDate) : ProcessingDate × ProcessingDate :=
  (subMonths today 11, today)

/-- Modelled from the spec: the bound date parameters — slot values when
present, else the default trailing-12-month range. -/
def dateParams (today : ProcessingDate) (s : Slots) : List (String × ParamValue) :=
  match s.date_from, s.date_to with
  | some f, some t => [("month_from", .str f), ("month_to", .str t)]
  | _, _ =>
    [("month_from", .str (isoMonthStart (defaultRange today).1)),
      ("month_to", .str (isoMonthStart (defaultRange today).2))]

/-- Modelled from the spec: the bound industry parameters matching the
chosen industry filter shape. -/
def industryParams (lk : Lookups) (s : Slots) : List (String × ParamValue) :=
  match industryCond lk s with
  | .byCode => [("ssic_code", .str (s.ssic_code.getD ""))]
  | .byCodeSet =>
      [("ssic_codes", .strList (codesForCategory lk (s.ssic_category.getD "")))]
  | _ => []

/-- Modelled from the spec: the bound planning-area parameter when the area
slot is present. -/
def areaParams (s : Slots) : List (String × ParamValue) :=
  match s.planning_area with
  | some a => [("planning_area", .str a)]
  | none => []

/-- Modelled from the spec: every bound parameter of a rendered query; the
`limit` defaults to 10 and is integer-typed. -/
def renderParams (lk : Lookups) (today : ProcessingDate) (i : Intent) (s : Slots) :
    List (String × ParamValue) :=
  match i with
  | .general => []
  | .entity_lookup => []
  | .comparison =>
      dateParams today s ++
        [("compare_area_a", .str (s.compare_area_a.getD "")),
          ("compare_area_b", .str (s.compare_area_b.getD ""))] ++
        industryParams lk s ++ [("limit", .nat (s.limit.getD 10))]
  | _ => dateParams today s ++ industryParams lk s ++ areaParams s ++
      [("limit", .nat (s.limit.getD 10))]

/-- Modelled from the spec: a rendered query — SQL text plus bound
parameters, never string-interpolated. -/
structure Rendered where
  sql : String
  params : List (String × ParamValue)
deriving DecidableEq, Repr

/-- Modelled from the spec: the SQL template renderer — a pure function of
(intent, slot set) and the processing date used for date defaults. -/
def render (lk : Lookups) (today : ProcessingDate) (i : Intent) (s : Slots) : Rendered :=
  { sql := String.join (sqlPieces lk i s), params := renderParams lk today i s }

/-- Modelled from the spec: the response of the `sql-only` operation:
intent, slots and the rendered SQL text. -/
structure ExplainResponse where
  intent : Intent
  slots : Slots
  sql : String
deriving DecidableEq, Repr

/-- Modelled from the spec: the `explain` operation — extraction,
classification and rendering only; no execution. -/
def explain (lk : Lookups) (today : ProcessingDate) (q : String) : ExplainResponse :=
  { intent := (classify lk today q).1,
    slots := (classify lk today q).2,
    sql := (render lk today (classify lk today q).1 (classify lk today q).2).sql }

/-- Modelled from the spec: a warehouse result row — a mapping from column
name to a textual value, opaque to the NL layer. -/
abbrev Row := List (String × String)

/-- Modelled from the spec: the fixed apology/guidance narrative for
`general` questions. -/
def generalNarrative : String :=
  "Sorry, that question could not be mapped to a supported analysis. Try asking about trends, rankings, hotspots or comparisons."

/-- Modelled from the spec: the fixed zero-row narrative. -/
def noDataNarrative : String := "No data found for this filter."

/-- Modelled from the spec: deterministic template-based narrative
generation from the intent and the result rows. -/
def narrate (i : Intent) (rows : List Row) : String :=
  match i with
  | .general => generalNarrative
  | _ =>
    if rows.isEmpty then noDataNarrative
    else "Found " ++ toString rows.length ++ " result rows for the requested analysis."

/-- Modelled from the spec: the response of the `query` operation. -/
structure AnswerResponse where
  intent : Intent
  slots : Slots
  sql : String
  data : List Row
  narrative : String
deriving DecidableEq, Repr

/-- Modelled from the spec: the `answer` operation — explain, then execute
through the external warehouse client, then narrate. For `general` no query
is executed: the data is empty and the narrative is the fixed fallback. -/
def answer (lk : Lookups) (today : ProcessingDate) (exec : Rendered → List Row)
    (q : String) : AnswerResponse :=
  if (explain lk today q).intent = .general then
    { intent := (explain lk today q).intent, slots := (explain lk today q).slots,
      sql := (explain lk today q).sql, data := [], narrative := generalNarrative }
  else
    { intent := (explain lk today q).intent, slots := (explain lk today q).slots,
      sql := (explain lk today q).sql,
      data := exec (render lk today (explain lk today q).intent (explain lk today q).slots),
      narrative :=
        narrate (explain lk today q).intent
          (exec (render lk today (explain lk today q).intent (explain lk today q).slots)) }

/-- Modelled from the spec: no recognizable cues — every extractor comes
back empty and no intent cue is present. -/
def noCues (lk : Lookups) (today : ProcessingDate) (q : String) : Bool :=
  (mentionedAreas lk (normalizeTokens q)).isEmpty &&
    (extractIndustry lk (normalizeTokens q)).1.isNone &&
    (extractIndustry lk (normalizeTokens q)).2.isNone &&
    (extractDates today (normalizeTokens q)).isNone &&
    !hasCompareCue (normalizeTokens q) &&
    !hasHotspotCue (normalizeTokens q) &&
    !hasDistributionCue (normalizeTokens q) &&
    !hasRankingCue (normalizeTokens q) &&
    !hasTrendCue (normalizeTokens q) &&
    !hasLookupCue q (normalizeTokens q)

/-- Modelled from the spec: a warehouse row as seen by the industry filter
of a rendered query. -/
structure WRow where
  primary_ssic_norm : String := ""
  planning_area_id : String := ""
  registration_month : Nat := 0
deriving DecidableEq, Repr

/-- Modelled from the spec: evaluation of the rendered industry filter with
its bound parameters against one warehouse row. -/
def evalIndustryCond (lk : Lookups) (s : Slots) (r : WRow) : Bool :=
  match industryCond lk s with
  | .noneCond => true
  | .byCode => s.ssic_code == some r.primary_ssic_norm
  | .byCodeSet => (codesForCategory lk (s.ssic_category.getD "")).contains r.primary_ssic_norm
  | .never => false

/-- A small concrete lookup table used to evaluate the engine on concrete
questions. -/
def sampleLookups : Lookups :=
  { areas := ["tampines", "woodlands", "jurong west"],
    categories :=
      [{ id := "fnb", label := "food and beverage", keywords := ["restaurant", "cafe"],
         codes := ["56111", "56112"] },
       { id := "retail", label := "retail trade", keywords := ["shop"], codes := [] }] }

/-- A fixed sample processing date. -/
def sampleDate : ProcessingDate := { year := 2024, month := 6 }

end NlSql

/-!
## Verified properties
-/

namespace FilterBar

open Str

/-- C6: when a non-empty input matches some category's label exactly
(case-insensitively), the matcher selects the label-matched category even
when keyword matches exist; when no label matches, an exact keyword match
selects its category. In both cases the raw `ssic` slot is cleared; a
partial substring match never selects a category. -/
theorem filterbar_label_match_precedence (categories : List SsicCategory)
    (categoryInput : String) (state : FilterState) (c : SsicCategory)
    (hne : (trimStr categoryInput).toList.isEmpty = false) :
    (directMatch categories (trimStr categoryInput) = some c →
      (onCategoryInput categories categoryInput state).ssicCategory = some c.id ∧
      (onCategoryInput categories categoryInput state).ssic = none) ∧
    (directMatch categories (trimStr categoryInput) = none →
      keywordMatch categories (trimStr categoryInput) = some c →
      (onCategoryInput categories categoryInput state).ssicCategory = some c.id ∧
      (onCategoryInput categories categoryInput state).ssic = none) := by
  constructor
  · intro hd
    simp only [onCategoryInput, hne, Bool.false_eq_true, if_false, hd, Option.some_orElse]
    exact ⟨trivial, trivial⟩
  · intro hd hk
    simp only [onCategoryInput, hne, Bool.false_eq_true, if_false, hd, hk, Option.none_orElse]
    exact ⟨trivial, trivial⟩

/-- Witness for C6: with `sampleCategories`, the input "food" matches the
label of the `food` category and the keyword list of the `beverages`
category; the label match wins. -/
theorem filterbar_label_match_precedence_witness :
    (onCategoryInput sampleCategories "food" {}).ssicCategory = some "food" ∧
    (onCategoryInput sampleCategories "food" {}).ssic = none :=
  (filterbar_label_match_precedence sampleCategories "food" {}
    { id := "food", label := "Food", keywords := ["meals"], sector := "" } (by decide)).1
    (by decide)

/-- C5 counterexample: the claim says a digit-only token is always treated
as an SSIC code, never a keyword; but when a loaded category carries the
digit string "65" as a keyword, `onCategoryInput "65"` selects that
category and leaves the `ssic` slot unset, because the exact
label/keyword match is consulted before the digit test. -/
theorem filterbar_digit_keyword_counterexample :
    (onCategoryInput [{ id := "c561", label := "catering", keywords := ["65"] }] "65"
        {}).ssic = none ∧
    (onCategoryInput [{ id := "c561", label := "catering", keywords := ["65"] }] "65"
        {}).ssicCategory = some "c561" := by
  decide

/-- C5 (amended): a digit-only input that matches no category label or
keyword exactly (case-insensitively) is stored as the raw SSIC code slot,
and the category slot is cleared. -/
theorem filterbar_digit_input_sets_code_when_unmatched (categories : List SsicCategory)
    (categoryInput : String) (state : FilterState)
    (hd : directMatch categories (trimStr categoryInput) = none)
    (hk : keywordMatch categories (trimStr categoryInput) = none)
    (hdig : isDigitString (trimStr categoryInput) = true) :
    (onCategoryInput categories categoryInput state).ssic = some (trimStr categoryInput) ∧
    (onCategoryInput categories categoryInput state).ssicCategory = none := by
  have hne : (trimStr categoryInput).toList.isEmpty = false := by
    have h := hdig
    unfold isDigitString at h
    rcases he : (trimStr categoryInput).toList.isEmpty
    · rfl
    · rw [he] at h; simp at h
  simp only [onCategoryInput, hne, Bool.false_eq_true, if_false, hd, hk, Option.none_orElse,
    hdig, if_true]
  exact ⟨trivial, trivial⟩

/-- Witness for amended C5: the digit input " 0653 " matches no sample
category and lands in the `ssic` slot. -/
theorem filterbar_digit_input_witness :
    (onCategoryInput sampleCategories " 0653 " {}).ssic = some (trimStr " 0653 ") ∧
    (onCategoryInput sampleCategories " 0653 " {}).ssicCategory = none :=
  filterbar_digit_input_sets_code_when_unmatched sampleCategories " 0653 " {} (by decide)
    (by decide) (by decide)

/-- C9: after `selectCategory` or `onCategoryInput`, at most one of the two
industry slots is defined — setting either slot clears the other, and an
input matching neither a category nor a digit string clears both. -/
theorem filterbar_industry_slots_exclusive (categories : List SsicCategory)
    (categoryInput : String) (state : FilterState) (category : SsicCategory) :
    ((selectCategory category state).ssicCategory = some category.id ∧
      (selectCategory category state).ssic = none) ∧
    atMostOneIndustrySlot (onCategoryInput categories categoryInput state) ∧
    (directMatch categories (trimStr categoryInput) = none →
      keywordMatch categories (trimStr categoryInput) = none →
      isDigitString (trimStr categoryInput) = false →
      (onCategoryInput categories categoryInput state).ssic = none ∧
      (onCategoryInput categories categoryInput state).ssicCategory = none) := by
  refine ⟨⟨rfl, rfl⟩, ?_, ?_⟩
  · unfold onCategoryInput atMostOneIndustrySlot
    split
    · exact Or.inl rfl
    · split
      · exact Or.inl rfl
      · split
        · exact Or.inr rfl
        · exact Or.inl rfl
  · intro hd hk hdig
    rcases hne : (trimStr categoryInput).toList.isEmpty
    · simp only [onCategoryInput, hne, Bool.false_eq_true, if_false, hd, hk, Option.none_orElse,
        hdig]
      exact ⟨trivial, trivial⟩
    · simp only [onCategoryInput, hne, if_true]
      exact ⟨trivial, trivial⟩

/-- Witness for C9: the unmatched non-digit input "zzz" leaves both
industry slots clear. -/
theorem filterbar_industry_slots_exclusive_witness :
    atMostOneIndustrySlot (onCategoryInput sampleCategories "zzz" {}) ∧
    (onCategoryInput sampleCategories "zzz" {}).ssic = none ∧
    (onCategoryInput sampleCategories "zzz" {}).ssicCategory = none := by
  have h := filterbar_industry_slots_exclusive sampleCategories "zzz" {}
    { id := "food", label := "Food", keywords := ["meals"], sector := "" }
  exact ⟨h.2.1, (h.2.2 (by decide) (by decide) (by decide)).1,
    (h.2.2 (by decide) (by decide) (by decide)).2⟩

end FilterBar

/-- C8: `chatSql` and `chatQuery` issue POST requests with body
`{question}` to `/api/chat/sql-only` and `/api/chat/query` under the
service base URL, and a `ChatResponse` is exactly a `ChatSqlResponse`
(`{intent, slots, sql}`) extended with `data` and `narrative`. -/
theorem api_chat_endpoints_contract (q : String) :
    Api.chatSql q = { method := .post, url := "http://localhost:8000/api/chat/sql-only",
                      body := { question := q } } ∧
    Api.chatQuery q = { method := .post, url := "http://localhost:8000/api/chat/query",
                        body := { question := q } } ∧
    ∀ r : Api.ChatResponse,
      r = { toChatSqlResponse := { intent := r.intent, slots := r.slots, sql := r.sql },
            data := r.data, narrative := r.narrative } := by
  refine ⟨rfl, rfl, ?_⟩
  intro r
  rcases r with ⟨⟨i, s, sql⟩, d, n⟩
  rfl

/-- C10: `renderGeo` computes a maximum count of at least 1 for every
hotspot list (the empty list included), so the denominator of the
per-feature intensity ratio is never zero and the ratio is well-defined
(it recovers the count when multiplied back by the maximum). -/
theorem map_rendergeo_maxcount_positive (hotspots : List MapPage.MapHotspot) :
    1 ≤ MapPage.renderGeoMaxCount hotspots ∧
    ((MapPage.renderGeoMaxCount hotspots : ℚ) ≠ 0) ∧
    ∀ count : Int,
      MapPage.featureIntensity hotspots count * (MapPage.renderGeoMaxCount hotspots : ℚ)
        = (count : ℚ) := by
  have h1 : 1 ≤ MapPage.renderGeoMaxCount hotspots := by
    unfold MapPage.renderGeoMaxCount
    induction hotspots with
    | nil => simp
    | cons h t ih =>
      simp only [List.map_cons, List.foldr_cons]
      exact le_trans ih (le_max_right _ _)
  have h2 : ((MapPage.renderGeoMaxCount hotspots : ℚ) ≠ 0) := by
    have h0 : (0 : Int) < MapPage.renderGeoMaxCount hotspots :=
      lt_of_lt_of_le Int.zero_lt_one h1
    exact_mod_cast Int.ne_of_gt h0
  refine ⟨h1, h2, ?_⟩
  intro count
  unfold MapPage.featureIntensity
  exact div_mul_cancel₀ _ h2

namespace NlSql

theorem industrySql_mem (lk : Lookups) (s : Slots) :
    industrySql (industryCond lk s) ∈ sqlFragments := by
  cases hic : industryCond lk s <;> decide

theorem areaSql_mem (s : Slots) : areaSql s ∈ sqlFragments := by
  unfold areaSql
  cases hpa : s.planning_area
  · decide
  · show (" AND planning_area_id = {planning_area}" : String) ∈ sqlFragments
    decide

theorem mem_sqlFragments_of_mem_sqlPieces (lk : Lookups) (i : Intent) (s : Slots) :
    ∀ p ∈ sqlPieces lk i s, p ∈ sqlFragments := by
  intro p hp
  cases i <;> simp only [sqlPieces, List.mem_cons, List.not_mem_nil, or_false] at hp
  case general => subst hp; decide
  case entity_lookup => subst hp; decide
  case comparison =>
    rcases hp with h | h | h | h | h | h <;> subst h
    · decide
    · decide
    · decide
    · exact industrySql_mem lk s
    · decide
    · decide
  case trend =>
    rcases hp with h | h | h | h | h | h <;> subst h
    · decide
    · decide
    · exact industrySql_mem lk s
    · exact areaSql_mem s
    · decide
    · decide
  case ranking =>
    rcases hp with h | h | h | h | h | h <;> subst h
    · decide
    · decide
    · exact industrySql_mem lk s
    · exact areaSql_mem s
    · decide
    · decide
  case hotspot =>
    rcases hp with h | h | h | h | h | h <;> subst h
    · decide
    · decide
    · exact industrySql_mem lk s
    · exact areaSql_mem s
    · decide
    · decide

theorem fallbackIntent_ne_comparison (today : ProcessingDate) (q : String)
    (toks : List String) (s : Slots) : fallbackIntent today q toks s ≠ .comparison := by
  unfold fallbackIntent
  split
  · decide
  split
  · decide
  split
  · decide
  split
  · decide
  · decide

/-- C1: for every question, the rendered SQL text is a concatenation of
fragments drawn from the fixed, user-independent fragment list
`sqlFragments` — no substring of the SQL text is derived from user input;
slot values travel only in the bound-parameter list. -/
theorem nlsql_sql_text_only_static_fragments (lk : Lookups) (today : ProcessingDate)
    (q : String) :
    ∃ ps : List String, (∀ p ∈ ps, p ∈ sqlFragments) ∧
      (explain lk today q).sql = String.join ps :=
  ⟨sqlPieces lk (classify lk today q).1 (classify lk today q).2,
    mem_sqlFragments_of_mem_sqlPieces lk (classify lk today q).1 (classify lk today q).2, rfl⟩

/-- C2: rendering is a pure function of the classification — two questions
with the same loaded lookups and processing date that classify to the same
(intent, slot set) render byte-identical responses (sql and slots alike),
so repeated calls of `explain` on one question are identical. -/
theorem nlsql_explain_deterministic_of_classification (lk : Lookups)
    (today : ProcessingDate) (q₁ q₂ : String)
    (h : classify lk today q₁ = classify lk today q₂) :
    explain lk today q₁ = explain lk today q₂ := by
  unfold explain
  rw [h]

/-- Witness for C2: "trend" and "  trend " classify identically and render
identical responses. -/
theorem nlsql_explain_deterministic_witness :
    classify sampleLookups sampleDate "trend" = classify sampleLookups sampleDate "  trend " ∧
    explain sampleLookups sampleDate "trend" = explain sampleLookups sampleDate "  trend " :=
  ⟨by decide,
    nlsql_explain_deterministic_of_classification sampleLookups sampleDate "trend" "  trend "
      (by decide)⟩

/-- C3: exactly two distinct recognized area mentions with a comparison cue
classify as `comparison` with both comparison slots set and distinct; with
fewer or more than two mentions, both comparison slots stay unset and the
intent is some non-comparison intent (possibly `general`). -/
theorem nlsql_comparison_requires_two_distinct_areas (lk : Lookups)
    (today : ProcessingDate) (q : String) :
    (∀ a b, mentionedAreas lk (normalizeTokens q) = [a, b] →
      hasCompareCue (normalizeTokens q) = true →
      (classify lk today q).1 = .comparison ∧
      (classify lk today q).2.compare_area_a = some a ∧
      (classify lk today q).2.compare_area_b = some b ∧ a ≠ b) ∧
    ((mentionedAreas lk (normalizeTokens q)).length ≠ 2 →
      (classify lk today q).1 ≠ .comparison ∧
      (classify lk today q).2.compare_area_a = none ∧
      (classify lk today q).2.compare_area_b = none) := by
  constructor
  · intro a b ha hc
    have hnd : (mentionedAreas lk (normalizeTokens q)).Nodup := List.nodup_dedup _
    rw [ha] at hnd
    have hab : a ≠ b := by simp [List.nodup_cons] at hnd; exact hnd
    simp only [classify, ha, hc]
    exact ⟨trivial, trivial, trivial, hab⟩
  · intro hlen
    rcases hA : mentionedAreas lk (normalizeTokens q) with _ | ⟨a, _ | ⟨b, _ | ⟨c, rest⟩⟩⟩
    · simp only [classify, hA]
      exact ⟨fallbackIntent_ne_comparison _ _ _ _, rfl, rfl⟩
    · simp only [classify, hA]
      exact ⟨fallbackIntent_ne_comparison _ _ _ _, rfl, rfl⟩
    · rw [hA] at hlen
      simp at hlen
    · simp only [classify, hA]
      exact ⟨fallbackIntent_ne_comparison _ _ _ _, rfl, rfl⟩

/-- Witness for C3: "compare tampines vs woodlands" is a comparison with
the two distinct areas; "shops in tampines" (one area mention) is not a
comparison. -/
theorem nlsql_comparison_witness :
    (classify sampleLookups sampleDate "compare tampines vs woodlands").1 = .comparison ∧
    (classify sampleLookups sampleDate "compare tampines vs woodlands").2.compare_area_a
      = some "tampines" ∧
    (classify sampleLookups sampleDate "compare tampines vs woodlands").2.compare_area_b
      = some "woodlands" ∧
    (classify sampleLookups sampleDate "shops in tampines").1 ≠ .comparison := by
  have h :=
    (nlsql_comparison_requires_two_distinct_areas sampleLookups sampleDate
        "compare tampines vs woodlands").1
      "tampines" "woodlands" (by decide) (by decide)
  have h2 :=
    ((nlsql_comparison_requires_two_distinct_areas sampleLookups sampleDate
        "shops in tampines").2 (by decide)).1
  exact ⟨h.1, h.2.1, h.2.2.1, h2⟩

/-- C4: a question with no recognizable cues yields intent `general`, an
empty slot set, the zero-row stand-in query, empty data and the fixed
fallback narrative — a valid response with no query executed, never an
exception. -/
theorem nlsql_general_fallback_no_cues (lk : Lookups) (today : ProcessingDate)
    (exec : Rendered → List Row) (q : String) (h : noCues lk today q = true) :
    answer lk today exec q =
      { intent := .general, slots := {}, sql := fallbackSql, data := [],
        narrative := generalNarrative } := by
  simp only [noCues, Bool.and_eq_true, Bool.not_eq_true'] at h
  obtain ⟨⟨⟨⟨⟨⟨⟨⟨⟨h1, h2⟩, h3⟩, h4⟩, h5⟩, h6⟩, h7⟩, h8⟩, h9⟩, h10⟩ := h
  have hA : mentionedAreas lk (normalizeTokens q) = [] := by
    simpa using h1
  have hI1 : (extractIndustry lk (normalizeTokens q)).1 = none := by
    simpa using h2
  have hI2 : (extractIndustry lk (normalizeTokens q)).2 = none := by
    simpa using h3
  have hD : extractDates today (normalizeTokens q) = none := by
    simpa using h4
  have hbs : baseSlots lk today (normalizeTokens q) = {} := by
    unfold baseSlots
    rw [hA, hI1, hI2, hD]
    rfl
  have hcl : classify lk today q = (.general, ({} : Slots)) := by
    unfold classify
    rw [hA]
    rw [hbs]
    unfold fallbackIntent
    rw [h6, h8, h9, h10, hD]
    simp [h7]
  have hex : explain lk today q =
      { intent := .general, slots := {}, sql := fallbackSql } := by
    unfold explain
    rw [hcl]
    rfl
  simp [answer, hex]

/-- Witness for C4: the question "asdkjasd" produces the fixed general
fallback response under any executor. -/
theorem nlsql_general_fallback_witness :
    answer sampleLookups sampleDate (fun _ => []) "asdkjasd" =
      { intent := .general, slots := {}, sql := fallbackSql, data := [],
        narrative := generalNarrative } :=
  nlsql_general_fallback_no_cues sampleLookups sampleDate (fun _ => []) "asdkjasd" (by decide)

/-- C7: when the industry slot names a category mapping to zero SSIC codes
(an unrecognized category included), the renderer substitutes the
matches-nothing condition " AND 1 = 0" instead of omitting the industry
filter, and that condition filters every row list down to zero rows. -/
theorem nlsql_zero_code_category_matches_nothing (lk : Lookups) (s : Slots) (cat : String)
    (h1 : s.ssic_code = none) (h2 : s.ssic_category = some cat)
    (h3 : codesForCategory lk cat = []) :
    industryCond lk s = .never ∧
    industrySql (industryCond lk s) = " AND 1 = 0" ∧
    ∀ rows : List WRow, rows.filter (evalIndustryCond lk s) = [] := by
  have hc : industryCond lk s = .never := by
    unfold industryCond
    rw [h1, h2]
    simp [h3]
  have hev : ∀ r, evalIndustryCond lk s r = false := by
    intro r
    unfold evalIndustryCond
    rw [hc]
  refine ⟨hc, by rw [hc]; rfl, ?_⟩
  intro rows
  induction rows with
  | nil => rfl
  | cons r rest ih => simp [List.filter, hev r, ih]

/-- Witness for C7: the sample `retail` category maps to zero codes; a
non-empty row list filters to the empty list under its industry
condition. -/
theorem nlsql_zero_code_category_witness :
    industryCond sampleLookups { ssic_category := some "retail" } = .never ∧
    ([{ primary_ssic_norm := "47110" }] : List WRow).filter
        (evalIndustryCond sampleLookups { ssic_category := some "retail" }) = [] := by
  have h := nlsql_zero_code_category_matches_nothing sampleLookups
    { ssic_category := some "retail" } "retail" rfl rfl (by decide)
  exact ⟨h.1, h.2.2 [{ primary_ssic_norm := "47110" }]⟩

end NlSql
